import Mathlib

/-!
Verification of the `OutlookToCSVs` pipeline (`src/viadot/flows/outlook_to_adls.py`)
and of the minimal DAG task-orchestration kernel its specification describes.

The flow-construction layer (`__init__`, `gen_outlook_df`, `gen_flow`) is embedded
directly from the source file.  The generic orchestration kernel the flow leans on
(graph edge addition, dependency-ordered execution, the union/reduce task, the
local-write collaborator) lives outside `src/`; those parts are modelled from the
specification, each marked `Modelled from the spec:` in its doc comment.
-/

namespace Viadot

/-- A parameter value bound to a task at graph-construction time: a literal
(string, optional string, integer, boolean) or a reference to the future output
of another task (by node id), or a list of such references. -/
inductive PValue where
  | str (s : String)
  | ostr (s : Option String)
  | int (n : Int)
  | bool (b : Bool)
  | ref (id : Nat)
  | refs (ids : List Nat)
deriving DecidableEq, Repr

/-- The node ids a parameter value references (its implicit upstream dependencies). -/
def PValue.refIds : PValue → List Nat
  | .ref i => [i]
  | .refs l => l
  | _ => []

/-- A task bound into a graph: the task's name and its keyword-parameter bindings,
in binding order.  The node's id is its index in the graph's node list. -/
structure TaskNode where
  name : String
  params : List (String × PValue)
deriving DecidableEq, Repr

/-- All node ids referenced by this node's parameters. -/
def TaskNode.refIds (t : TaskNode) : List Nat :=
  (t.params.map (fun p => p.2.refIds)).flatten

/-- A pipeline graph: the bound task nodes (id = position) and the explicitly
declared edges (upstream id, downstream id). -/
structure FlowGraph where
  nodes : List TaskNode
  edges : List (Nat × Nat)
deriving DecidableEq, Repr

def emptyGraph : FlowGraph := ⟨[], []⟩

/-- `bind`: register a task with its parameters into the graph, returning the new
node's handle (its id) together with the grown graph.  Mirrors prefect `Task.bind`
as used by the source: binding never executes anything. -/
def bindTask (g : FlowGraph) (name : String) (params : List (String × PValue)) :
    Nat × FlowGraph :=
  (g.nodes.length, ⟨g.nodes ++ [⟨name, params⟩], g.edges⟩)

/-- `t.set_upstream(u, flow)` as used at lines 100-101 of the source: record the
explicit edge `up → down` in the flow's edge set. -/
def set_upstream (g : FlowGraph) (up down : Nat) : FlowGraph :=
  ⟨g.nodes, g.edges ++ [(up, down)]⟩

/-- The constructor state of `OutlookToCSVs.__init__` (source lines 51-62): the
fields stored on `self`, including the misspelt `if_exsists` attribute.  `name`,
`extension_file` and the prefect `Flow` superclass state play no role in
`gen_flow` and are not needed by the graph. -/
structure OutlookToCSVs where
  mailbox_list : List String
  start_date : Option String
  end_date : Option String
  limit : Int
  local_file_path : Option String
  if_exsists : String
  adls_file_path : Option String
  overwrite_adls : Bool
  adls_sp_credentials_secret : Option String
deriving DecidableEq, Repr

/-- `OutlookToCSVs.__init__` storing its arguments (source lines 51-62): every
argument, including any `if_exists` string whatsoever, is stored unchanged;
no validation happens. -/
def outlookToCSVsInit (mailbox_list : List String) (start_date end_date : Option String)
    (local_file_path : Option String) (adls_file_path : Option String)
    (overwrite_adls : Bool) (adls_sp_credentials_secret : Option String)
    (limit : Int) (if_exists : String) : OutlookToCSVs :=
  { mailbox_list := mailbox_list
    start_date := start_date
    end_date := end_date
    limit := limit
    local_file_path := local_file_path
    if_exsists := if_exists
    adls_file_path := adls_file_path
    overwrite_adls := overwrite_adls
    adls_sp_credentials_secret := adls_sp_credentials_secret }

/-- `gen_outlook_df` (source lines 68-80): bind one `outlook_to_df` extraction
task for one mailbox, with the shared `start_date`, `end_date`, `limit`. -/
def gen_outlook_df (cfg : OutlookToCSVs) (mailbox : String) (g : FlowGraph) :
    Nat × FlowGraph :=
  bindTask g "outlook_to_df"
    [("mailbox_name", .str mailbox),
     ("start_date", .ostr cfg.start_date),
     ("end_date", .ostr cfg.end_date),
     ("limit", .int cfg.limit)]

/-- The extraction node bound for one mailbox (the result of one
`gen_outlook_df` call). -/
def extractNode (cfg : OutlookToCSVs) (mailbox : String) : TaskNode :=
  ⟨"outlook_to_df",
    [("mailbox_name", .str mailbox),
     ("start_date", .ostr cfg.start_date),
     ("end_date", .ostr cfg.end_date),
     ("limit", .int cfg.limit)]⟩

/-- `apply_map(self.gen_outlook_df, self.mailbox_list, flow=self)` (source line 84):
bind one extraction task per list element, in list order, returning the handles
in the same order. -/
def apply_map_outlook (cfg : OutlookToCSVs) (l : List String)
    (acc : List Nat × FlowGraph) : List Nat × FlowGraph :=
  l.foldl
    (fun acc mb =>
      let r := gen_outlook_df cfg mb acc.2
      (acc.1 ++ [r.1], r.2))
    acc

/-- `gen_flow` (source lines 82-101): map the extraction task over the mailbox
list, bind the union task on the mapped handles, bind the CSV-write task on the
union's output, bind the upload task on the stored paths, then declare the two
explicit edges `union → write` and `write → upload`. -/
def gen_flow (cfg : OutlookToCSVs) : FlowGraph :=
  let dfs := apply_map_outlook cfg cfg.mailbox_list ([], emptyGraph)
  let df := bindTask dfs.2 "union_dfs_task" [("dfs", .refs dfs.1)]
  let df_to_file := bindTask df.2 "df_to_csv"
    [("df", .ref df.1),
     ("path", .ostr cfg.local_file_path),
     ("if_exists", .str cfg.if_exsists)]
  let adls := bindTask df_to_file.2 "file_to_adls_task"
    [("from_path", .ostr cfg.local_file_path),
     ("to_path", .ostr cfg.adls_file_path),
     ("overwrite", .bool cfg.overwrite_adls),
     ("sp_credentials_secret", .ostr cfg.adls_sp_credentials_secret)]
  let g := set_upstream adls.2 df.1 df_to_file.1
  set_upstream g df_to_file.1 adls.1

/-- The ordered extraction handles returned by the `apply_map` call inside
`gen_flow`. -/
def gen_flow_handles (cfg : OutlookToCSVs) : List Nat :=
  (apply_map_outlook cfg cfg.mailbox_list ([], emptyGraph)).1

/-- The upstream dependencies of node `i` in graph `g`: the sources of explicit
edges into `i`, followed by the nodes referenced by `i`'s parameters. -/
def upstreams (g : FlowGraph) (i : Nat) : List Nat :=
  ((g.edges.filter (fun e => e.2 == i)).map (fun e => e.1)) ++
    (g.nodes.getD i ⟨"", []⟩).refIds

/-- The union node bound by `gen_flow` over `n` extraction handles. -/
def unionNode (n : Nat) : TaskNode :=
  ⟨"union_dfs_task", [("dfs", .refs (List.range n))]⟩

/-- The CSV-write node bound by `gen_flow`; its `df` parameter references the
union node (id `n`). -/
def writeNode (cfg : OutlookToCSVs) (n : Nat) : TaskNode :=
  ⟨"df_to_csv",
    [("df", .ref n),
     ("path", .ostr cfg.local_file_path),
     ("if_exists", .str cfg.if_exsists)]⟩

/-- The upload node bound by `gen_flow`; none of its parameters references
another node's output. -/
def uploadNode (cfg : OutlookToCSVs) : TaskNode :=
  ⟨"file_to_adls_task",
    [("from_path", .ostr cfg.local_file_path),
     ("to_path", .ostr cfg.adls_file_path),
     ("overwrite", .bool cfg.overwrite_adls),
     ("sp_credentials_secret", .ostr cfg.adls_sp_credentials_secret)]⟩

theorem apply_map_outlook_eq (cfg : OutlookToCSVs) (l : List String) (hs : List Nat)
    (g : FlowGraph) :
    apply_map_outlook cfg l (hs, g) =
      (hs ++ List.range' g.nodes.length l.length,
       ⟨g.nodes ++ l.map (extractNode cfg), g.edges⟩) := by
  induction l generalizing hs g with
  | nil => simp [apply_map_outlook]
  | cons mb rest ih =>
    show apply_map_outlook cfg rest
        (hs ++ [g.nodes.length], ⟨g.nodes ++ [extractNode cfg mb], g.edges⟩) = _
    rw [ih]
    simp [List.range'_succ, List.append_assoc]

/-- Closed form of `gen_flow`: for mailbox list of length `n`, nodes `0..n-1` are
the extraction nodes in list order, node `n` is the union node referencing all of
them, node `n+1` the write node referencing the union, node `n+2` the upload
node, and the explicit edges are `union → write` and `write → upload`. -/
theorem gen_flow_eq (cfg : OutlookToCSVs) :
    gen_flow cfg =
      ⟨cfg.mailbox_list.map (extractNode cfg) ++
        [unionNode cfg.mailbox_list.length,
         writeNode cfg cfg.mailbox_list.length,
         uploadNode cfg],
       [(cfg.mailbox_list.length, cfg.mailbox_list.length + 1),
        (cfg.mailbox_list.length + 1, cfg.mailbox_list.length + 2)]⟩ := by
  show (set_upstream _ _ _) = _
  rw [show apply_map_outlook cfg cfg.mailbox_list ([], emptyGraph) =
        (List.range' 0 cfg.mailbox_list.length,
         ⟨cfg.mailbox_list.map (extractNode cfg), []⟩) by
      rw [apply_map_outlook_eq]; rfl]
  simp [bindTask, set_upstream, unionNode, writeNode, uploadNode,
    List.range_eq_range']

/-- The extraction handles returned by `apply_map` are `0..n-1` in order. -/
theorem gen_flow_handles_eq (cfg : OutlookToCSVs) :
    gen_flow_handles cfg = List.range cfg.mailbox_list.length := by
  show (apply_map_outlook cfg cfg.mailbox_list ([], emptyGraph)).1 = _
  rw [apply_map_outlook_eq]
  simp [List.range_eq_range', emptyGraph]

theorem gen_flow_node_extract (cfg : OutlookToCSVs) (k : Nat)
    (hk : k < cfg.mailbox_list.length) :
    (gen_flow cfg).nodes.getD k ⟨"", []⟩ =
      extractNode cfg (cfg.mailbox_list.getD k "") := by
  rw [gen_flow_eq]
  simp only [List.getD_eq_getElem?_getD]
  rw [List.getElem?_append_left (by simpa using hk), List.getElem?_map,
    List.getElem?_eq_getElem hk]
  simp [List.getD_eq_getElem?_getD, List.getElem?_eq_getElem hk]

theorem gen_flow_node_union (cfg : OutlookToCSVs) :
    (gen_flow cfg).nodes.getD cfg.mailbox_list.length ⟨"", []⟩ =
      unionNode cfg.mailbox_list.length := by
  rw [gen_flow_eq]
  simp only [List.getD_eq_getElem?_getD]
  rw [List.getElem?_append_right (by simp)]
  simp

theorem gen_flow_node_write (cfg : OutlookToCSVs) :
    (gen_flow cfg).nodes.getD (cfg.mailbox_list.length + 1) ⟨"", []⟩ =
      writeNode cfg cfg.mailbox_list.length := by
  rw [gen_flow_eq]
  simp only [List.getD_eq_getElem?_getD]
  rw [List.getElem?_append_right (by simp)]
  simp

theorem gen_flow_node_upload (cfg : OutlookToCSVs) :
    (gen_flow cfg).nodes.getD (cfg.mailbox_list.length + 2) ⟨"", []⟩ =
      uploadNode cfg := by
  rw [gen_flow_eq]
  simp only [List.getD_eq_getElem?_getD]
  rw [List.getElem?_append_right (by simp)]
  simp

/-- C1: for every non-empty mailbox list, `apply_map` binds exactly one
`outlook_to_df` extraction node per list element, the returned handle sequence
is `0..n-1` (input order preserved), and node `k` is the extraction task bound
with the list's `k`-th element as `mailbox_name` and the shared `start_date`,
`end_date` and `limit`. -/
theorem map_binds_one_extraction_per_mailbox (cfg : OutlookToCSVs)
    (_hne : cfg.mailbox_list ≠ []) :
    gen_flow_handles cfg = List.range cfg.mailbox_list.length ∧
    ((gen_flow cfg).nodes.filter (fun t => t.name == "outlook_to_df")).length =
      cfg.mailbox_list.length ∧
    ∀ k, k < cfg.mailbox_list.length →
      (gen_flow cfg).nodes.getD k ⟨"", []⟩ =
        ⟨"outlook_to_df",
          [("mailbox_name", .str (cfg.mailbox_list.getD k "")),
           ("start_date", .ostr cfg.start_date),
           ("end_date", .ostr cfg.end_date),
           ("limit", .int cfg.limit)]⟩ := by
  refine ⟨gen_flow_handles_eq cfg, ?_, ?_⟩
  · rw [gen_flow_eq]
    rw [List.filter_append,
      List.filter_eq_self.mpr (by
        intro t ht
        obtain ⟨mb, _, rfl⟩ := List.mem_map.mp ht
        rfl)]
    simp [unionNode, writeNode, uploadNode]
  · intro k hk
    rw [gen_flow_node_extract cfg k hk]
    rfl

/-- Concrete pipeline configuration from §8's end-to-end scenario:
two mailboxes, the given dates, limit 100, `if_exists="replace"`. -/
def cfgEx : OutlookToCSVs :=
  outlookToCSVsInit ["sales@x.com", "ops@x.com"]
    (some "2022-01-01") (some "2022-01-02")
    (some "outlook.csv") (some "raw/outlook.csv") true (some "secret")
    100 "replace"

theorem map_binds_one_extraction_per_mailbox_witness :
    cfgEx.mailbox_list ≠ [] ∧
    (gen_flow_handles cfgEx = List.range cfgEx.mailbox_list.length ∧
     ((gen_flow cfgEx).nodes.filter (fun t => t.name == "outlook_to_df")).length =
       cfgEx.mailbox_list.length ∧
     ∀ k, k < cfgEx.mailbox_list.length →
       (gen_flow cfgEx).nodes.getD k ⟨"", []⟩ =
         ⟨"outlook_to_df",
           [("mailbox_name", .str (cfgEx.mailbox_list.getD k "")),
            ("start_date", .ostr cfgEx.start_date),
            ("end_date", .ostr cfgEx.end_date),
            ("limit", .int cfgEx.limit)]⟩) :=
  ⟨by decide, map_binds_one_extraction_per_mailbox cfgEx (by decide)⟩

/-- C2: on the two-mailbox scenario the flow has exactly 2 extraction nodes
(ids 0, 1), one union node (id 2) whose upstreams are both extractions, one
write node (id 3) downstream of the union, and one upload node (id 4) whose
only dependency is the explicitly declared write → upload edge — its
parameters reference no other node's output. -/
theorem two_mailbox_scenario_graph_shape :
    (gen_flow cfgEx).nodes.length = 5 ∧
    ((gen_flow cfgEx).nodes.filter (fun t => t.name == "outlook_to_df")).length = 2 ∧
    ((gen_flow cfgEx).nodes.getD 2 ⟨"", []⟩).name = "union_dfs_task" ∧
    ((gen_flow cfgEx).nodes.getD 3 ⟨"", []⟩).name = "df_to_csv" ∧
    ((gen_flow cfgEx).nodes.getD 4 ⟨"", []⟩).name = "file_to_adls_task" ∧
    upstreams (gen_flow cfgEx) 2 = [0, 1] ∧
    upstreams (gen_flow cfgEx) 3 = [2, 2] ∧
    upstreams (gen_flow cfgEx) 4 = [3] ∧
    (gen_flow cfgEx).edges = [(2, 3), (3, 4)] ∧
    ((gen_flow cfgEx).nodes.getD 4 ⟨"", []⟩).refIds = [] := by
  decide

/-- C9: whatever string is supplied as `if_exists` — including strings outside
`{"append", "replace", "skip"}` — the constructor stores it unchanged on
`self.if_exsists`, flow construction completes building the full graph (no
validation error is ever raised at bind time), and the write task's
`if_exists` parameter is bound to exactly that string. -/
theorem if_exists_forwarded_unvalidated (mailbox_list : List String)
    (start_date end_date local_file_path adls_file_path creds : Option String)
    (overwrite : Bool) (limit : Int) (ie : String) :
    (outlookToCSVsInit mailbox_list start_date end_date local_file_path
        adls_file_path overwrite creds limit ie).if_exsists = ie ∧
    (gen_flow (outlookToCSVsInit mailbox_list start_date end_date local_file_path
        adls_file_path overwrite creds limit ie)).nodes.length =
      (outlookToCSVsInit mailbox_list start_date end_date local_file_path
        adls_file_path overwrite creds limit ie).mailbox_list.length + 3 ∧
    ((gen_flow (outlookToCSVsInit mailbox_list start_date end_date local_file_path
        adls_file_path overwrite creds limit ie)).nodes.getD
          ((outlookToCSVsInit mailbox_list start_date end_date local_file_path
            adls_file_path overwrite creds limit ie).mailbox_list.length + 1)
          ⟨"", []⟩).params.lookup "if_exists" =
      some (.str ie) := by
  refine ⟨rfl, ?_, ?_⟩
  · rw [gen_flow_eq]; simp
  · rw [gen_flow_node_write]; rfl

/-- C10: in every constructed flow the write node's `path` parameter and the
upload node's `from_path` parameter are the identical `local_file_path` value
stored by the constructor, for any choice of the other arguments. -/
theorem write_path_equals_upload_from_path (cfg : OutlookToCSVs) :
    ((gen_flow cfg).nodes.getD (cfg.mailbox_list.length + 1)
        ⟨"", []⟩).params.lookup "path" = some (.ostr cfg.local_file_path) ∧
    ((gen_flow cfg).nodes.getD (cfg.mailbox_list.length + 2)
        ⟨"", []⟩).params.lookup "from_path" = some (.ostr cfg.local_file_path) := by
  rw [gen_flow_node_write, gen_flow_node_upload]
  exact ⟨rfl, rfl⟩

/-- A pipeline configuration with an empty mailbox list. -/
def cfgEmpty : OutlookToCSVs :=
  outlookToCSVsInit [] none none (some "out.csv") none true none 10000 "append"

/-- C8 counterexample: with an empty mailbox list, flow construction is not
rejected — a graph with zero extraction nodes is built (union bound on an
empty handle list, then write and upload). -/
theorem empty_mailbox_list_builds_graph :
    (gen_flow cfgEmpty).nodes.length = 3 ∧
    ((gen_flow cfgEmpty).nodes.filter (fun t => t.name == "outlook_to_df")).length
      = 0 ∧
    (gen_flow cfgEmpty).nodes.getD 0 ⟨"", []⟩ = ⟨"union_dfs_task", [("dfs", .refs [])]⟩ := by
  decide

/-- C8 amended: constructing the pipeline with an empty mailbox list is not
rejected; `gen_flow` builds a graph with zero extraction nodes, consisting
only of the union node (bound on an empty handle list), the write node and
the upload node, with the two explicit edges. -/
theorem empty_mailbox_list_not_rejected (cfg : OutlookToCSVs)
    (h : cfg.mailbox_list = []) :
    gen_flow cfg =
      ⟨[unionNode 0, writeNode cfg 0, uploadNode cfg], [(0, 1), (1, 2)]⟩ := by
  rw [gen_flow_eq, h]
  rfl

theorem empty_mailbox_list_not_rejected_witness :
    cfgEmpty.mailbox_list = [] ∧
    gen_flow cfgEmpty =
      ⟨[unionNode 0, writeNode cfgEmpty 0, uploadNode cfgEmpty], [(0, 1), (1, 2)]⟩ :=
  ⟨rfl, empty_mailbox_list_not_rejected cfgEmpty rfl⟩

/-- The error taxonomy of the orchestration kernel (spec §7). -/
inductive GraphError where
  | ParameterError
  | CycleError
  | UnknownNodeError
  | SchemaMismatchError
deriving DecidableEq, Repr

/-- Fuelled reachability along explicit edges: is there a path of at most
`fuel` edges from `a` to `b`? -/
def reachesAux (edges : List (Nat × Nat)) : Nat → Nat → Nat → Bool
  | 0, a, b => a == b
  | fuel + 1, a, b =>
    a == b || edges.any (fun e => e.1 == a && reachesAux edges fuel e.2 b)

/-- `a` reaches `b` along the edge list (any path uses at most `edges.length`
distinct edges, so that much fuel suffices). -/
def reaches (edges : List (Nat × Nat)) (a b : Nat) : Bool :=
  reachesAux edges edges.length a b

theorem reaches_self (edges : List (Nat × Nat)) (a : Nat) :
    reaches edges a a = true := by
  unfold reaches
  cases edges.length <;> simp [reachesAux]

/-- Modelled from the spec: `add_edge(upstream, downstream)` of the Graph API
(the graph engine itself is not under `src/`).  A node belongs to the graph iff
its id indexes the node list.  Fails with `UnknownNodeError` when either
endpoint is not a node of this graph, with `CycleError` when the new edge would
close a cycle — i.e. `downstream` already reaches `upstream`, which includes the
self-edge `upstream = downstream`; on failure the graph is returned unchanged,
otherwise the edge is appended. -/
def add_edge (g : FlowGraph) (up down : Nat) : Option GraphError × FlowGraph :=
  if up < g.nodes.length ∧ down < g.nodes.length then
    if reaches g.edges down up then (some .CycleError, g)
    else (none, ⟨g.nodes, g.edges ++ [(up, down)]⟩)
  else (some .UnknownNodeError, g)

/-- Modelled from the spec: a table-like `ResultValue` — a column list (the
schema) and the data rows.  The concrete pandas `DataFrame` lives outside
`src/`. -/
structure DF where
  cols : List String
  rows : List (List String)
deriving DecidableEq, Repr

/-- Modelled from the spec: the run phase of `union_dfs_task` (its
implementation is not under `src/`) — concatenate the input results in handle
order into one aggregate value with the shared schema; fails with
`SchemaMismatchError` when the shapes diverge (strict policy, no padding). -/
def union_dfs (dfs : List DF) : Except GraphError DF :=
  match dfs with
  | [] => .ok ⟨[], []⟩
  | d :: rest =>
    if rest.all (fun x => x.cols == d.cols) then
      .ok ⟨d.cols, ((d :: rest).map DF.rows).flatten⟩
    else
      .error .SchemaMismatchError

/-- The CSV text the write collaborator produces for a result value: a header
line followed by one line per row. -/
def csvLines (d : DF) : List String :=
  String.intercalate "," d.cols :: d.rows.map (String.intercalate ",")

/-- Modelled from the spec: the local-write collaborator
`write(data, path, if_exists)` (`df_to_csv` is not under `src/`), as a function
of the destination file's current content (`none` = the file does not exist).
`append` concatenates the new rows onto the existing content, `replace`
overwrites, `skip` leaves an existing file untouched and reports success
without writing; any other policy string is rejected by the collaborator.
Returns the destination's content after a successful call. -/
def write_csv (data : DF) (existing : Option (List String)) (if_exists : String) :
    Except GraphError (List String) :=
  match existing with
  | none => .ok (csvLines data)
  | some old =>
    if if_exists == "skip" then .ok old
    else if if_exists == "replace" then .ok (csvLines data)
    else if if_exists == "append" then
      .ok (old ++ data.rows.map (String.intercalate ","))
    else .error .ParameterError

/-- Terminal execution status of a node (spec §4.5/§7): the node either ran its
own operation (`Succeeded`/`Failed`) or was skipped because an upstream did not
succeed (`UpstreamFailure`). -/
inductive NodeStatus where
  | Succeeded
  | Failed
  | UpstreamFailure
deriving DecidableEq, Repr

/-- Modelled from the spec: one scheduling step of `Graph.run()` — node `i`
runs its own operation (outcome given by the collaborator oracle `outcome`)
only when every one of its upstreams already holds status `Succeeded` in
`prev`; otherwise it is skipped and marked `UpstreamFailure`. -/
def stepStatus (g : FlowGraph) (outcome : Nat → Bool) (prev : List NodeStatus)
    (i : Nat) : NodeStatus :=
  if (upstreams g i).all (fun u => prev.getD u .UpstreamFailure == .Succeeded) then
    (if outcome i then .Succeeded else .Failed)
  else .UpstreamFailure

/-- Statuses of nodes `0..n-1` after executing them in bind (= topological)
order; the run never aborts, every visited node receives a status. -/
def statusesUpTo (g : FlowGraph) (outcome : Nat → Bool) : Nat → List NodeStatus
  | 0 => []
  | n + 1 =>
    statusesUpTo g outcome n ++ [stepStatus g outcome (statusesUpTo g outcome n) n]

/-- Modelled from the spec: `Graph.run()` (the scheduler is not under `src/`) —
execute every node in topological (bind) order and report one terminal status
per node. -/
def runStatuses (g : FlowGraph) (outcome : Nat → Bool) : List NodeStatus :=
  statusesUpTo g outcome g.nodes.length

/-- The status `run()` reports for node `i`. -/
def nodeStatus (g : FlowGraph) (outcome : Nat → Bool) (i : Nat) : NodeStatus :=
  (runStatuses g outcome).getD i .UpstreamFailure

/-- A graph is well-formed when every dependency points strictly backwards in
bind order — true of every graph the binding API of this module constructs. -/
def wellFormed (g : FlowGraph) : Bool :=
  (List.range g.nodes.length).all (fun i => (upstreams g i).all (fun u => u < i))

theorem getD_concat_own {α : Type} (l : List α) (x d : α) (i : Nat)
    (h : l.length = i) : (l ++ [x]).getD i d = x := by
  subst h
  simp [List.getD_eq_getElem?_getD, List.getElem?_concat_length]

theorem statusesUpTo_length (g : FlowGraph) (o : Nat → Bool) :
    ∀ n, (statusesUpTo g o n).length = n := by
  intro n
  induction n with
  | zero => rfl
  | succ m ih => simp [statusesUpTo, ih]

theorem statusesUpTo_getD (g : FlowGraph) (o : Nat → Bool) :
    ∀ n i, i < n →
      (statusesUpTo g o n).getD i .UpstreamFailure =
        stepStatus g o (statusesUpTo g o i) i := by
  intro n
  induction n with
  | zero => intro i hi; omega
  | succ m ih =>
    intro i hi
    rcases Nat.lt_succ_iff_lt_or_eq.mp hi with h | rfl
    · rw [show statusesUpTo g o (m + 1) =
          statusesUpTo g o m ++ [stepStatus g o (statusesUpTo g o m) m] from rfl]
      rw [List.getD_eq_getElem?_getD,
        List.getElem?_append_left (by rw [statusesUpTo_length]; exact h),
        ← List.getD_eq_getElem?_getD]
      exact ih i h
    · rw [show statusesUpTo g o (i + 1) =
          statusesUpTo g o i ++ [stepStatus g o (statusesUpTo g o i) i] from rfl]
      exact getD_concat_own _ _ _ _ (statusesUpTo_length g o i)

theorem nodeStatus_eq_step (g : FlowGraph) (o : Nat → Bool) (i : Nat)
    (hi : i < g.nodes.length) :
    nodeStatus g o i = stepStatus g o (statusesUpTo g o i) i :=
  statusesUpTo_getD g o g.nodes.length i hi

theorem statusesUpTo_getD_stable (g : FlowGraph) (o : Nat → Bool) (i u : Nat)
    (hu : u < i) (hi : i ≤ g.nodes.length) :
    (statusesUpTo g o i).getD u .UpstreamFailure = nodeStatus g o u := by
  rw [statusesUpTo_getD g o i u hu]
  exact (statusesUpTo_getD g o g.nodes.length u (lt_of_lt_of_le hu hi)).symm

theorem wellFormed_upstream_lt (g : FlowGraph) (hwf : wellFormed g = true)
    (i : Nat) (hi : i < g.nodes.length) :
    ∀ u ∈ upstreams g i, u < i := by
  intro u hu
  have h1 := List.all_eq_true.mp hwf i (List.mem_range.mpr hi)
  exact of_decide_eq_true (List.all_eq_true.mp h1 u hu)

theorem nodeStatus_run (g : FlowGraph) (o : Nat → Bool) (i : Nat)
    (hwf : wellFormed g = true) (hi : i < g.nodes.length)
    (h : ∀ u ∈ upstreams g i, nodeStatus g o u = .Succeeded) :
    nodeStatus g o i = (if o i then .Succeeded else .Failed) := by
  rw [nodeStatus_eq_step g o i hi]
  unfold stepStatus
  rw [if_pos]
  refine List.all_eq_true.mpr (fun u hu => ?_)
  rw [statusesUpTo_getD_stable g o i u (wellFormed_upstream_lt g hwf i hi u hu)
    (Nat.le_of_lt hi), h u hu]
  rfl

theorem nodeStatus_skip (g : FlowGraph) (o : Nat → Bool) (i : Nat)
    (hwf : wellFormed g = true) (hi : i < g.nodes.length)
    (h : ∃ u ∈ upstreams g i, nodeStatus g o u ≠ .Succeeded) :
    nodeStatus g o i = .UpstreamFailure := by
  rw [nodeStatus_eq_step g o i hi]
  unfold stepStatus
  rw [if_neg]
  intro hall
  obtain ⟨u, hu, hne⟩ := h
  apply hne
  have := List.all_eq_true.mp hall u hu
  rw [statusesUpTo_getD_stable g o i u (wellFormed_upstream_lt g hwf i hi u hu)
    (Nat.le_of_lt hi)] at this
  exact eq_of_beq this

/-- C3: in a well-formed graph, `run()` reports a terminal status for every
node; a node runs its own operation only when all of its upstreams (explicit
edges plus parameter references) have `Succeeded`; if any upstream did not
succeed the node is skipped as `UpstreamFailure` — in particular an
`UpstreamFailure` upstream propagates onward, giving transitive propagation to
all descendants; and any node all of whose upstreams succeeded still runs its
own operation, so independent branches complete regardless of failures
elsewhere. -/
theorem run_reports_every_node_and_respects_deps (g : FlowGraph)
    (outcome : Nat → Bool) (hwf : wellFormed g = true) :
    (runStatuses g outcome).length = g.nodes.length ∧
    (∀ i, i < g.nodes.length → nodeStatus g outcome i ≠ .UpstreamFailure →
      ∀ u ∈ upstreams g i, nodeStatus g outcome u = .Succeeded) ∧
    (∀ i, i < g.nodes.length →
      (∃ u ∈ upstreams g i, nodeStatus g outcome u ≠ .Succeeded) →
      nodeStatus g outcome i = .UpstreamFailure) ∧
    (∀ i, i < g.nodes.length →
      (∃ u ∈ upstreams g i, nodeStatus g outcome u = .UpstreamFailure) →
      nodeStatus g outcome i = .UpstreamFailure) ∧
    (∀ i, i < g.nodes.length →
      (∀ u ∈ upstreams g i, nodeStatus g outcome u = .Succeeded) →
      nodeStatus g outcome i = (if outcome i then .Succeeded else .Failed)) := by
  refine ⟨statusesUpTo_length g outcome g.nodes.length, ?_, ?_, ?_, ?_⟩
  · intro i hi hne u hu
    by_contra hu'
    exact hne (nodeStatus_skip g outcome i hwf hi ⟨u, hu, hu'⟩)
  · intro i hi h
    exact nodeStatus_skip g outcome i hwf hi h
  · intro i hi h
    obtain ⟨u, hu, hus⟩ := h
    exact nodeStatus_skip g outcome i hwf hi ⟨u, hu, by rw [hus]; intro hc; cases hc⟩
  · intro i hi h
    exact nodeStatus_run g outcome i hwf hi h

/-- Collaborator outcome oracle in which the first extraction fails and every
other node's own operation succeeds. -/
def outcomeFail0 : Nat → Bool := fun i => decide (i ≠ 0)

theorem run_reports_every_node_and_respects_deps_witness :
    wellFormed (gen_flow cfgEx) = true ∧
    ((runStatuses (gen_flow cfgEx) outcomeFail0).length =
        (gen_flow cfgEx).nodes.length ∧
     (∀ i, i < (gen_flow cfgEx).nodes.length →
       nodeStatus (gen_flow cfgEx) outcomeFail0 i ≠ .UpstreamFailure →
       ∀ u ∈ upstreams (gen_flow cfgEx) i,
         nodeStatus (gen_flow cfgEx) outcomeFail0 u = .Succeeded) ∧
     (∀ i, i < (gen_flow cfgEx).nodes.length →
       (∃ u ∈ upstreams (gen_flow cfgEx) i,
         nodeStatus (gen_flow cfgEx) outcomeFail0 u ≠ .Succeeded) →
       nodeStatus (gen_flow cfgEx) outcomeFail0 i = .UpstreamFailure) ∧
     (∀ i, i < (gen_flow cfgEx).nodes.length →
       (∃ u ∈ upstreams (gen_flow cfgEx) i,
         nodeStatus (gen_flow cfgEx) outcomeFail0 u = .UpstreamFailure) →
       nodeStatus (gen_flow cfgEx) outcomeFail0 i = .UpstreamFailure) ∧
     (∀ i, i < (gen_flow cfgEx).nodes.length →
       (∀ u ∈ upstreams (gen_flow cfgEx) i,
         nodeStatus (gen_flow cfgEx) outcomeFail0 u = .Succeeded) →
       nodeStatus (gen_flow cfgEx) outcomeFail0 i =
         (if outcomeFail0 i then .Succeeded else .Failed))) :=
  ⟨by decide,
   run_reports_every_node_and_respects_deps (gen_flow cfgEx) outcomeFail0 (by decide)⟩

/-- C4: `add_edge` fails with `UnknownNodeError` when either endpoint is not a
node of the graph; fails with `CycleError` when both endpoints are nodes and
the edge would close a cycle (`downstream` reaches `upstream`, which includes
every self-edge `up = down`); and after any rejected addition the graph — node
set and edge set — is returned unchanged. -/
theorem add_edge_spec (g : FlowGraph) (up down : Nat) :
    (¬(up < g.nodes.length ∧ down < g.nodes.length) →
      add_edge g up down = (some .UnknownNodeError, g)) ∧
    (up < g.nodes.length → down < g.nodes.length →
      reaches g.edges down up = true →
      add_edge g up down = (some .CycleError, g)) ∧
    (up < g.nodes.length → up = down →
      add_edge g up down = (some .CycleError, g)) ∧
    (∀ e, (add_edge g up down).1 = some e → (add_edge g up down).2 = g) := by
  refine ⟨?_, ?_, ?_, ?_⟩
  · intro h
    unfold add_edge
    rw [if_neg h]
  · intro h1 h2 h3
    unfold add_edge
    rw [if_pos ⟨h1, h2⟩, if_pos h3]
  · intro h1 h2
    subst h2
    unfold add_edge
    rw [if_pos ⟨h1, h1⟩, if_pos (reaches_self g.edges up)]
  · intro e
    unfold add_edge
    split
    · split
      · intro; rfl
      · intro h; cases h
    · intro; rfl

theorem add_edge_spec_witness :
    add_edge (gen_flow cfgEx) 7 2 = (some .UnknownNodeError, gen_flow cfgEx) ∧
    add_edge (gen_flow cfgEx) 4 4 = (some .CycleError, gen_flow cfgEx) ∧
    add_edge (gen_flow cfgEx) 4 2 = (some .CycleError, gen_flow cfgEx) :=
  ⟨(add_edge_spec (gen_flow cfgEx) 7 2).1 (by decide),
   (add_edge_spec (gen_flow cfgEx) 4 4).2.2.1 (by decide) rfl,
   (add_edge_spec (gen_flow cfgEx) 4 2).2.1 (by decide) (by decide) (by decide)⟩

theorem union_dfs_cons (d : DF) (rest : List DF) :
    union_dfs (d :: rest) =
      if rest.all (fun x => x.cols == d.cols) then
        .ok ⟨d.cols, ((d :: rest).map DF.rows).flatten⟩
      else .error .SchemaMismatchError := rfl

/-- C5: when every input result shares the head result's column shape, the
union concatenates the results' rows in handle order into one aggregate with
that shape; when any input's shape diverges it fails with
`SchemaMismatchError` instead of padding or silently merging. -/
theorem union_dfs_spec (d : DF) (rest : List DF) :
    ((∀ x ∈ rest, x.cols = d.cols) →
      union_dfs (d :: rest) = .ok ⟨d.cols, ((d :: rest).map DF.rows).flatten⟩) ∧
    ((∃ x ∈ rest, x.cols ≠ d.cols) →
      union_dfs (d :: rest) = .error .SchemaMismatchError) := by
  constructor
  · intro h
    rw [union_dfs_cons, if_pos]
    exact List.all_eq_true.mpr (fun x hx => by rw [h x hx]; exact beq_self_eq_true _)
  · intro h
    obtain ⟨x, hx, hne⟩ := h
    rw [union_dfs_cons, if_neg]
    intro hall
    exact hne (eq_of_beq (List.all_eq_true.mp hall x hx))

/-- Two-column mail results sharing one schema, and one with a diverging schema. -/
def dfA : DF := ⟨["subject", "sender"], [["hello", "a@x.com"], ["hi", "b@x.com"]]⟩

def dfB : DF := ⟨["subject", "sender"], [["yo", "c@x.com"]]⟩

def dfC : DF := ⟨["subject", "sender"], [["re", "d@x.com"], ["fw", "e@x.com"]]⟩

def dfBad : DF := ⟨["subject"], [["alone"]]⟩

theorem union_dfs_spec_witness :
    union_dfs [dfA, dfB] =
      .ok ⟨dfA.cols, (([dfA, dfB]).map DF.rows).flatten⟩ ∧
    union_dfs [dfA, dfBad] = .error .SchemaMismatchError :=
  ⟨(union_dfs_spec dfA [dfB]).1 (by decide),
   (union_dfs_spec dfA [dfBad]).2 (by decide)⟩

/-- C6: for results `A`, `B`, `C` with matching schemas, unioning `[A, B]` and
then unioning that aggregate with `C` yields exactly the aggregate of the
single call `union [A, B, C]`: the reduce is associative and order-preserving. -/
theorem union_dfs_assoc (A B C : DF) (hB : B.cols = A.cols)
    (hC : C.cols = A.cols) :
    ∃ U, union_dfs [A, B] = .ok U ∧
      union_dfs [U, C] = union_dfs [A, B, C] := by
  refine ⟨⟨A.cols, A.rows ++ B.rows⟩, ?_, ?_⟩
  · rw [union_dfs_cons, if_pos (by simp [hB])]
    simp
  · rw [union_dfs_cons, union_dfs_cons,
      if_pos (by simp [hC]), if_pos (by simp [hB, hC])]
    simp

theorem union_dfs_assoc_witness :
    dfB.cols = dfA.cols ∧ dfC.cols = dfA.cols ∧
    ∃ U, union_dfs [dfA, dfB] = .ok U ∧
      union_dfs [U, dfC] = union_dfs [dfA, dfB, dfC] :=
  ⟨rfl, rfl, union_dfs_assoc dfA dfB dfC rfl rfl⟩

/-- C7: for every existing destination file, running the write collaborator
with `if_exists = "skip"` leaves the file's content identical — the returned
content is exactly the old content, no write occurs — and still reports
success. -/
theorem write_csv_skip_preserves_content (data : DF) (old : List String) :
    write_csv data (some old) "skip" = .ok old := by
  rfl

end Viadot
